import Mathlib

/-!
Shallow embedding of `screens.py`, a multi-screen video/playlist launcher.

The script resolves each assignment's source (video file, playlist document,
or directory) to an ordered list of playable locations, binds each resolved
list to a monitor's geometry inside an embedded player window, starts all
players, and stops everything on a global Escape key.

Modelling conventions:
* Paths and URLs are `String`s.  `pathlib`'s `(parent / child).resolve()` is
  modelled as pure path concatenation `joinPath` (filesystem normalisation,
  symlinks and the current working directory are outside the embedding);
  `str(Path(p))` is modelled as the identity.
* The filesystem and the external libraries (tkinter, libVLC, screeninfo) are
  modelled by explicit state flags: which handles a session has allocated, and
  an environment `Env` carrying the monitor list, the platform, the resolver
  result for each source string, and the two module-level configuration flags
  `LOOP_PLAYLIST` / `SHUFFLE_PLAYLIST`.
* Python exceptions become `Except` / explicit failure records; `sys.exit(n)`
  becomes an exit code in the run result.
-/

namespace Screens

/-- Supported video extensions (`VIDEO_EXTS` in the script). -/
def VIDEO_EXTS : List String :=
  [".mp4", ".mkv", ".avi", ".mov", ".wmv", ".flv", ".m4v", ".webm"]

/-- Supported playlist extensions (`PLAYLIST_EXTS` in the script). -/
def PLAYLIST_EXTS : List String := [".m3u", ".m3u8", ".xspf"]

/-- Monitor geometry, as returned by `screeninfo.get_monitors()`. -/
structure Geo where
  x : Int
  y : Int
  width : Int
  height : Int
deriving DecidableEq, Repr

/-- An assignment `{path, screen}` (the `Assignment` dataclass). -/
structure Assignment where
  path : String
  screen : Int
deriving DecidableEq, Repr

/-- Playback modes of `vlc.PlaybackMode` used by the script. -/
inductive PlaybackMode where
  | default
  | loop
  | random
deriving DecidableEq, Repr

/-- The `if SHUFFLE_PLAYLIST / elif LOOP_PLAYLIST / else` cascade choosing the
playback mode in `EmbeddedVLC.__init__` (lines 172-177), with the two
module-level flags as parameters.  In the repository the flags are
`LOOP_PLAYLIST = True`, `SHUFFLE_PLAYLIST = False`. -/
def playback_mode (shufflePlaylist loopPlaylist : Bool) : PlaybackMode :=
  if shufflePlaylist then .random
  else if loopPlaylist then .loop
  else .default

/-- Geometry lookup `monitor_for` inside `embed_and_play`: 1-based screen index lookup.
Raises `IndexError` (modelled as `.error`) when `idx < 1 or idx > len(mons)`;
otherwise returns `mons[idx - 1]`.  The `none` branch of the lookup is
unreachable under the guard. -/
def monitor_for (mons : List Geo) (idx : Int) : Except String Geo :=
  if idx < 1 || idx > (mons.length : Int) then
    .error "ScreenOutOfRange"
  else
    match mons.get? (idx - 1).toNat with
    | some m => .ok m
    | none => .error "ScreenOutOfRange"

/-! ## String helpers

Python's string primitives, re-implemented by structural recursion over the
character list so that every definition evaluates inside the kernel. -/

/-- The whitespace characters `str.strip()` removes (ASCII approximation of
Python's default strip set). -/
def isPySpace (c : Char) : Bool :=
  c = ' ' || c = '\t' || c = '\n' || c = '\r' || c = Char.ofNat 11 || c = Char.ofNat 12

/-- Python `str.strip()`: remove leading and trailing whitespace. -/
def pyStrip (s : String) : String :=
  String.mk (((s.toList.dropWhile isPySpace).reverse.dropWhile isPySpace).reverse)

/-- Python `str.startswith(c)` for a one-character prefix. -/
def startsWithChar (s : String) (c : Char) : Bool :=
  match s.toList with
  | [] => false
  | d :: _ => d = c

/-- ASCII lower-casing of one character (`str.lower`). -/
def lowerChar (c : Char) : Char :=
  if 'A' ≤ c ∧ c ≤ 'Z' then Char.ofNat (c.toNat + 32) else c

/-- Python `str.lower()` (ASCII). -/
def pyLower (s : String) : String := String.mk (s.toList.map lowerChar)

/-- Python slicing `s[n:]`: drop the first `n` characters. -/
def dropStr (s : String) (n : Nat) : String := String.mk (s.toList.drop n)

/-- Emptiness of a string. -/
def strIsEmpty (s : String) : Bool := s.toList.isEmpty

/-- Strict lexicographic comparison of character lists by code point —
Python's `<` on strings. -/
def lexLt : List Char → List Char → Bool
  | [], [] => false
  | [], _ :: _ => true
  | _ :: _, [] => false
  | a :: as, b :: bs =>
    if a.toNat < b.toNat then true
    else if b.toNat < a.toNat then false
    else lexLt as bs

/-- Comparison `a <= b` on strings, Python's comparison used by `sorted`. -/
def strLe (a b : String) : Bool := !lexLt b.toList a.toList

/-! ## Path helpers -/

/-- Python `os.path.isabs` on POSIX: the path begins with a separator.  Used for the
M3U parser's relative/absolute decision. -/
def isAbsPosix (s : String) : Bool := startsWithChar s '/'

/-- Drive-letter absolute path (`C:/...`), the form `pathlib` accepts as
absolute on Windows after file-URL conversion. -/
def isDriveAbs (s : String) : Bool :=
  match s.toList with
  | c :: d :: sep :: _ => c.isAlpha && d = ':' && sep = '/'
  | _ => false

/-- Pathlib `Path.is_absolute()` parameterised by the platform (`isWindows` is
`os.name == 'nt'`). -/
def is_absolute (isWindows : Bool) (s : String) : Bool :=
  if isWindows then isDriveAbs s else isAbsPosix s

/-- Joining `(parent / child)` on paths, with `.resolve()` modelled as the pure
concatenation (no `..`-normalisation, no filesystem access). -/
def joinPath (parent child : String) : String := parent ++ "/" ++ child

/-! ## M3U parser (`parse_m3u`, lines 61-74) -/

/-- One M3U entry: a (already stripped, non-empty, non-comment) line is kept
as-is when absolute, otherwise resolved against the playlist document's
containing directory (`(m3u_path.parent / line).resolve()`). -/
def resolve_m3u_line (parentDir line : String) : String :=
  if isAbsPosix line then line else joinPath parentDir line

/-- The loop body of `parse_m3u` over the document's lines: each line is
`strip()`ped; empty results and lines starting with `#` are skipped; the rest
are resolved and appended in file order. -/
def parse_m3u_lines (parentDir : String) : List String → List String
  | [] => []
  | raw :: rest =>
    let line := pyStrip raw
    if strIsEmpty line || startsWithChar line '#' then parse_m3u_lines parentDir rest
    else resolve_m3u_line parentDir line :: parse_m3u_lines parentDir rest

/-- Full `parse_m3u` including its `try/except`: the read either fails at `open`
(`openOk = false`), or yields `lines` and optionally raises after `k` lines
have been processed (`failAfter = some k`).  The `except` branch prints and
falls through to `return items`, so the entries accumulated before the
failure are returned. -/
def parse_m3u (parentDir : String) (openOk : Bool) (lines : List String)
    (failAfter : Option Nat) : List String :=
  if !openOk then []
  else
    match failAfter with
    | none => parse_m3u_lines parentDir lines
    | some k => parse_m3u_lines parentDir (lines.take k)

/-! ## XSPF parser (`parse_xspf`, lines 76-101) -/

/-- Value of a hex digit, as accepted by `urllib.parse.unquote`. -/
def hexVal (c : Char) : Option Nat :=
  if '0' ≤ c ∧ c ≤ '9' then some (c.toNat - '0'.toNat)
  else if 'a' ≤ c ∧ c ≤ 'f' then some (10 + c.toNat - 'a'.toNat)
  else if 'A' ≤ c ∧ c ≤ 'F' then some (10 + c.toNat - 'A'.toNat)
  else none

/-- Percent-decoding over characters: `%XY` with two hex digits becomes the
decoded character; a `%` not followed by two hex digits is kept literally
(as `unquote` does).  Decoding is modelled at ASCII level. -/
def unquoteChars : List Char → List Char
  | [] => []
  | '%' :: a :: b :: rest =>
    match hexVal a, hexVal b with
    | some hi, some lo => Char.ofNat (16 * hi + lo) :: unquoteChars rest
    | _, _ => '%' :: unquoteChars (a :: b :: rest)
  | c :: rest => c :: unquoteChars rest

/-- Python `urllib.parse.unquote`. -/
def unquote (s : String) : String := String.mk (unquoteChars s.toList)

/-- Split at the first occurrence of `://`, returning the characters before
it and after it. -/
def splitSchemeAux : List Char → List Char → Option (List Char × List Char)
  | acc, ':' :: '/' :: '/' :: rest => some (acc.reverse, rest)
  | acc, c :: rest => splitSchemeAux (c :: acc) rest
  | _, [] => none

/-- Python `urllib.parse.urlparse`, restricted to the forms the script meets:
with a `scheme://` prefix the scheme is lower-cased and the path is the part
of the remainder from its first `/` (the netloc before it is dropped);
without one the whole string is the path and the scheme is empty. -/
def urlSchemePath (url : String) : String × String :=
  match splitSchemeAux [] url.toList with
  | none => ("", url)
  | some (schemeCs, restCs) =>
    (pyLower (String.mk schemeCs), String.mk (restCs.dropWhile (fun c => c ≠ '/')))

/-- Processing of one `<track><location>` URL in `parse_xspf` (lines 86-98):
for scheme `file` or empty, percent-decode the path, strip the leading `/`
left by file-URL conversion when on Windows (`os.name == 'nt'`), and resolve
against the document's directory when still not absolute; any other scheme
(in particular `http`/`https`) is appended unmodified. -/
def xspf_location (isWindows : Bool) (docDir : String) (url : String) : String :=
  let sp := urlSchemePath url
  if sp.1 = "file" || sp.1 = "" then
    let path1 := unquote sp.2
    let path2 := if isWindows && startsWithChar path1 '/' then dropStr path1 1 else path1
    if is_absolute isWindows path2 then path2 else joinPath docDir path2
  else url

/-! ## Directory scanner (`scan_directory`, lines 103-109) -/

/-- A directory entry as seen by `Path.iterdir()`: its name and whether it is
a regular file (`False` covers subdirectories and other non-files). -/
structure DirEntry where
  name : String
  isFile : Bool
deriving DecidableEq, Repr

/-- Index of the last `.` in a character list, scanning from position `i`. -/
def lastDotIdx : List Char → Nat → Option Nat
  | [], _ => none
  | c :: rest, i =>
    match lastDotIdx rest (i + 1) with
    | some j => some j
    | none => if c = '.' then some i else none

/-- Pathlib `Path.suffix`: the name from its last dot on, non-empty only when that
dot is strictly inside the name (so `.hidden` and `name.` have no suffix). -/
def pathSuffix (name : String) : String :=
  let cs := name.toList
  match lastDotIdx cs 0 with
  | none => ""
  | some i =>
    if 0 < i ∧ i < cs.length - 1 then String.mk (cs.drop i) else ""

/-- Predicate `is_video_file`: the lower-cased suffix is a supported video extension. -/
def is_video_file (name : String) : Bool :=
  pyLower (pathSuffix name) ∈ VIDEO_EXTS

/-- Scanner `scan_directory`: keep the regular files whose name passes
`is_video_file`, sort them (Python's `sorted`, modelled by insertion sort on
the string order), and return each as the resolved path inside the
directory. -/
def scan_directory (dirPath : String) (entries : List DirEntry) : List String :=
  let names := (entries.filter (fun e => e.isFile && is_video_file e.name)).map DirEntry.name
  (List.insertionSort (fun a b => strLe a b = true) names).map (joinPath dirPath)

/-! ## Playback session (`EmbeddedVLC`, lines 145-213)

A session's externally visible state: which handles it holds (tkinter
`Toplevel` window, libVLC instance, media player) and the spec's abstract
lifecycle state.  `everPlayed` records whether `play()` was ever invoked on
the session. -/

inductive SessionState where
  | constructingS
  | playingS
  | stoppedS
deriving DecidableEq, Repr

structure VLCSession where
  screen : Int
  geo : Geo
  items : List String
  mode : PlaybackMode
  windowAllocated : Bool
  vlcInstanceAllocated : Bool
  mediaPlayerAllocated : Bool
  enginePlaying : Bool
  state : SessionState
  everPlayed : Bool
deriving DecidableEq, Repr

/-- Which of `stop`'s three sub-steps fail (raise inside their `try` block). -/
structure StopFailures where
  stopFails : Bool
  releaseFails : Bool
  destroyFails : Bool
deriving DecidableEq, Repr

def noStopFailures : StopFailures := ⟨false, false, false⟩

inductive StopStep where
  | engineStop
  | engineRelease
  | windowDestroy
deriving DecidableEq, Repr

/-- Method `EmbeddedVLC.stop` (lines 201-213): three sub-steps, each wrapped in its
own `try/except Exception: pass`, so each is attempted regardless of earlier
failures and the call never raises.  Returns the session's new state, the
list of sub-steps attempted, and whether an exception escaped the call.
A failing sub-step leaves its resource untouched. -/
def stop (s : VLCSession) (f : StopFailures) :
    VLCSession × List StopStep × Bool :=
  let s1 := if f.stopFails then s else { s with enginePlaying := false }
  let s2 := if f.releaseFails then s1 else { s1 with mediaPlayerAllocated := false }
  let s3 := if f.destroyFails then s2 else { s2 with windowAllocated := false }
  ({ s3 with state := .stoppedS },
   [.engineStop, .engineRelease, .windowDestroy],
   false)

/-- Method `EmbeddedVLC.play` (lines 191-199): start list playback, then request
fullscreen (failure there is swallowed and changes nothing observable). -/
def startPlay (s : VLCSession) : VLCSession :=
  { s with enginePlaying := true, state := .playingS, everPlayed := true }

/-! ## Environment and construction -/

inductive Platform where
  | linux
  | win32
  | darwin
deriving DecidableEq, Repr

/-- External world of a run: monitor list (from `screeninfo`), the result of
`resolve_playlist_sources` for each source string, the platform, and the two
module-level playback-mode flags. -/
structure Env where
  monitors : List Geo
  resolve : String → List String
  platform : Platform
  shufflePlaylist : Bool
  loopPlaylist : Bool

inductive InitError where
  | emptyPlaylist
  | platformUnsupported
deriving DecidableEq, Repr

/-- A construction failure together with the resources the half-built
session still holds at the moment the exception propagates. -/
structure InitFailure where
  error : InitError
  windowAllocated : Bool
  vlcInstanceAllocated : Bool
  mediaPlayerAllocated : Bool
deriving DecidableEq, Repr

/-- Constructor `EmbeddedVLC.__init__` (lines 146-189), in statement order:
1. create the `Toplevel` window (borderless, topmost, monitor geometry);
2. create the `vlc.Instance`;
3. `resolve_playlist_sources(source)`; raise `RuntimeError` when empty —
   the window and the instance created in 1-2 are NOT released;
4. create media list, media player, list player; set the playback mode;
5. bind the window handle; on macOS raise `RuntimeError` instead. -/
def embeddedVLC_init (env : Env) (mon : Geo) (screen : Int) (source : String) :
    Except InitFailure VLCSession :=
  let items := env.resolve source
  if items.isEmpty then
    .error { error := .emptyPlaylist, windowAllocated := true,
             vlcInstanceAllocated := true, mediaPlayerAllocated := false }
  else if env.platform = .darwin then
    .error { error := .platformUnsupported, windowAllocated := true,
             vlcInstanceAllocated := true, mediaPlayerAllocated := true }
  else
    .ok { screen, geo := mon, items,
          mode := playback_mode env.shufflePlaylist env.loopPlaylist,
          windowAllocated := true, vlcInstanceAllocated := true,
          mediaPlayerAllocated := true, enginePlaying := false,
          state := .constructingS, everPlayed := false }

/-- The session `embed_and_play`'s loop builds for an assignment, when both
the geometry lookup and the constructor succeed. -/
def buildSession (env : Env) (a : Assignment) : Option VLCSession :=
  match monitor_for env.monitors a.screen with
  | .error _ => none
  | .ok mon =>
    match embeddedVLC_init env mon a.screen a.path with
    | .error _ => none
    | .ok s => some s

/-- Whether an assignment survives both the geometry lookup and the
constructor. -/
def constructOk (env : Env) (a : Assignment) : Bool :=
  (buildSession env a).isSome

/-! ## Orchestrator (`embed_and_play`, lines 226-265) -/

inductive OrchFailure where
  | screenOutOfRange
  | initFailed (f : InitFailure)
deriving DecidableEq, Repr

/-- The construction loop of `embed_and_play`.  The whole loop runs inside a
single `try`, so the first exception aborts it; `acc` is the `players` list
built so far and `ws` records the screens for which a window was created
(`EmbeddedVLC.__init__` creates its window unconditionally as its first
statement, so a window exists also for an assignment whose constructor
fails later). -/
def constructAll (env : Env) :
    List Assignment → List VLCSession → List Int →
      List VLCSession × List Int × Option OrchFailure
  | [], acc, ws => (acc, ws, none)
  | a :: rest, acc, ws =>
    match monitor_for env.monitors a.screen with
    | .error _ => (acc, ws, some .screenOutOfRange)
    | .ok mon =>
      match embeddedVLC_init env mon a.screen a.path with
      | .error f => (acc, ws ++ [a.screen], some (.initFailed f))
      | .ok s => constructAll env rest (acc ++ [s]) (ws ++ [a.screen])

/-- Outcome of a run: the process exit code, the final state of every
session that was constructed, and the screens for which a window was ever
created. -/
structure RunResult where
  exitCode : Nat
  sessions : List VLCSession
  windowsCreated : List Int
deriving Repr

/-- Orchestrator `embed_and_play`:
* `list_monitors` exits with code 2 when no monitor is found;
* the construction loop and the thread-start loop share one `try`: any
  exception prints, stops every already-constructed player and exits with
  code 1 — the play threads never start on this path;
* otherwise every session's `play` runs in its own thread, the tk main loop
  runs until Escape, whose handler stops every player and quits the loop,
  and the `finally` block stops every player again (idempotently); the
  process then ends with exit code 0. -/
def embed_and_play (env : Env) (assignments : List Assignment) : RunResult :=
  if env.monitors.isEmpty then
    { exitCode := 2, sessions := [], windowsCreated := [] }
  else
    match constructAll env assignments [] [] with
    | (acc, ws, some _) =>
      { exitCode := 1,
        sessions := acc.map (fun s => (stop s noStopFailures).1),
        windowsCreated := ws }
    | (acc, ws, none) =>
      let played := acc.map startPlay
      let afterEscape := played.map (fun s => (stop s noStopFailures).1)
      { exitCode := 0,
        sessions := afterEscape.map (fun s => (stop s noStopFailures).1),
        windowsCreated := ws }

/-! ## Concrete fixtures, used by witnesses and counterexamples -/

def g0 : Geo := ⟨0, 0, 1920, 1080⟩

def g1 : Geo := ⟨1920, 0, 1920, 1080⟩

/-- A two-monitor environment where only the source `"ok.mp4"` resolves to a
non-empty playlist (everything else behaves like a missing file, for which
`resolve_playlist_sources` prints a message and returns `[]`). -/
def envA : Env :=
  { monitors := [g0, g1],
    resolve := fun src => if src = "ok.mp4" then ["/abs/ok.mp4"] else [],
    platform := .linux, shufflePlaylist := false, loopPlaylist := true }

/-- Two assignments, the first valid, the second pointing at a non-existent
file, on the two-monitor setup. -/
def asgA : List Assignment := [⟨"ok.mp4", 1⟩, ⟨"missing.mp4", 2⟩]

/-- A fully constructed, playing session on monitor 1. -/
def sessionW : VLCSession :=
  { screen := 1, geo := g0, items := ["/abs/ok.mp4"], mode := .loop,
    windowAllocated := true, vlcInstanceAllocated := true,
    mediaPlayerAllocated := true, enginePlaying := true,
    state := .playingS, everPlayed := true }

/-- The M3U parser as the spec sentence words it (for comparison with
`parse_m3u_lines`): keep exactly the raw document lines that are non-blank
and do not begin with `#`, each resolved against the document directory. -/
def claimedM3uLines (parentDir : String) (lines : List String) : List String :=
  (lines.filter (fun l => !strIsEmpty (pyStrip l) && !startsWithChar l '#')).map
    (resolve_m3u_line parentDir)

/-! ## Helper lemmas -/

theorem monitor_for_ok_of_bounds (mons : List Geo) (idx : Int)
    (h1 : 1 ≤ idx) (h2 : idx ≤ (mons.length : Int)) :
    ∃ h : (idx - 1).toNat < mons.length,
      monitor_for mons idx = .ok (mons.get ⟨(idx - 1).toNat, h⟩) := by
  have hlt : (idx - 1).toNat < mons.length := by omega
  refine ⟨hlt, ?_⟩
  unfold monitor_for
  have hguard : ¬(idx < 1 || idx > (mons.length : Int)) = true := by
    simp only [Bool.or_eq_true, decide_eq_true_eq, not_or]
    omega
  simp only [hguard, if_false, Bool.false_eq_true]
  rw [List.get?_eq_get hlt]

theorem monitor_for_error_iff (mons : List Geo) (idx : Int) :
    monitor_for mons idx = .error "ScreenOutOfRange" ↔
      (idx < 1 ∨ idx > (mons.length : Int)) := by
  constructor
  · intro h
    by_contra hc
    push_neg at hc
    obtain ⟨hlt, heq⟩ := monitor_for_ok_of_bounds mons idx (by omega) (by omega)
    rw [heq] at h
    exact Except.noConfusion h
  · intro h
    unfold monitor_for
    have hguard : (idx < 1 || idx > (mons.length : Int)) = true := by
      simp only [Bool.or_eq_true, decide_eq_true_eq]
      omega
    simp [hguard]

theorem monitor_for_ok_bounds {mons : List Geo} {idx : Int} {m : Geo}
    (h : monitor_for mons idx = .ok m) :
    1 ≤ idx ∧ idx ≤ (mons.length : Int) := by
  by_contra hc
  rw [not_and_or] at hc
  have : monitor_for mons idx = .error "ScreenOutOfRange" :=
    (monitor_for_error_iff mons idx).mpr (by omega)
  rw [this] at h
  exact Except.noConfusion h

/-! ## Claim theorems -/

/-- C10: the playback-mode cascade gives shuffle (random) priority: when both
flags are enabled the mode is `random` and the loop flag is ignored; `loop`
is chosen only when shuffle is off, and `default` only when both are off;
and every successfully constructed session carries exactly the mode this
cascade computes from the two module-level flags. -/
theorem c10_shuffle_overrides_loop :
    (∀ l : Bool, playback_mode true l = .random)
    ∧ playback_mode false true = .loop
    ∧ playback_mode false false = .default
    ∧ (∀ (env : Env) (mon : Geo) (sc : Int) (src : String) (s : VLCSession),
        embeddedVLC_init env mon sc src = .ok s →
        s.mode = playback_mode env.shufflePlaylist env.loopPlaylist) := by
  refine ⟨fun l => by cases l <;> rfl, rfl, rfl, ?_⟩
  intro env mon sc src s h
  unfold embeddedVLC_init at h
  by_cases he : (env.resolve src).isEmpty
  · simp [he] at h
  · by_cases hp : env.platform = .darwin
    · simp [he, hp] at h
    · simp [he, hp] at h
      rw [← h]

/-- C10 witness: the session constructed for `"ok.mp4"` in the concrete
environment `envA` carries `playback_mode false true = loop`. -/
theorem c10_witness :
    ∃ s : VLCSession, embeddedVLC_init envA g0 1 "ok.mp4" = .ok s
      ∧ s.mode = playback_mode false true := by
  refine ⟨{ screen := 1, geo := g0, items := ["/abs/ok.mp4"], mode := .loop,
            windowAllocated := true, vlcInstanceAllocated := true,
            mediaPlayerAllocated := true, enginePlaying := false,
            state := .constructingS, everPlayed := false }, rfl, ?_⟩
  exact c10_shuffle_overrides_loop.2.2.2 envA g0 1 "ok.mp4" _ rfl

/-- C7: `monitor_for` fails with the screen-out-of-range `IndexError` exactly
when the 1-based index is below 1 or above the monitor count (in particular
for index 0), and for every index in `1..count` it returns the geometry at
position `index - 1` of the enumeration. -/
theorem c7_monitor_for_range (mons : List Geo) (s : Int) :
    (monitor_for mons s = .error "ScreenOutOfRange" ↔
      (s < 1 ∨ s > (mons.length : Int)))
    ∧ (1 ≤ s → s ≤ (mons.length : Int) →
        ∃ h : (s - 1).toNat < mons.length,
          monitor_for mons s = .ok (mons.get ⟨(s - 1).toNat, h⟩)) :=
  ⟨monitor_for_error_iff mons s, fun h1 h2 => monitor_for_ok_of_bounds mons s h1 h2⟩

/-- C7 witness: on the two-monitor list, index 0 fails, index 3 fails, and
index 2 returns the second monitor. -/
theorem c7_witness :
    monitor_for [g0, g1] 0 = .error "ScreenOutOfRange"
    ∧ monitor_for [g0, g1] 3 = .error "ScreenOutOfRange"
    ∧ monitor_for [g0, g1] 2 = .ok g1 := by
  refine ⟨(c7_monitor_for_range [g0, g1] 0).1.mpr (by omega),
          (c7_monitor_for_range [g0, g1] 3).1.mpr (by simp),
          ?_⟩
  obtain ⟨h, heq⟩ := (c7_monitor_for_range [g0, g1] 2).2 (by omega) (by simp)
  simpa using heq

theorem parse_m3u_lines_append (parentDir : String) (l1 l2 : List String) :
    parse_m3u_lines parentDir (l1 ++ l2) =
      parse_m3u_lines parentDir l1 ++ parse_m3u_lines parentDir l2 := by
  induction l1 with
  | nil => rfl
  | cons raw rest ih =>
    cases h1 : strIsEmpty (pyStrip raw)
    · cases h2 : startsWithChar (pyStrip raw) '#'
      · simp [parse_m3u_lines, h1, h2, ih]
      · simp [parse_m3u_lines, h1, h2, ih]
    · simp [parse_m3u_lines, h1, ih]

/-- C4 counterexample: the document whose single line is `"\t#c"` (a comment
preceded by a tab).  That line is non-blank and does not begin with `#`, so
the claim's reading keeps it, but the parser strips each line first and
skips it: the two disagree. -/
theorem c4_counterexample :
    parse_m3u "dir" true ["\t#c"] none = []
    ∧ claimedM3uLines "dir" ["\t#c"] = ["dir/\t#c"]
    ∧ parse_m3u "dir" true ["\t#c"] none ≠ claimedM3uLines "dir" ["\t#c"] := by
  refine ⟨rfl, rfl, ?_⟩
  decide

/-- C4 (amended): each line is first stripped of surrounding whitespace; the
parser's output is exactly the stripped forms of the lines that are non-empty
and do not begin with `#` after stripping, in file order, each resolved
against the document's containing directory when not absolute (so `clip.mp4`
inside `dir/list.m3u` resolves to `dir/clip.mp4`) and kept as-is when
absolute. -/
theorem c4_m3u_lines (parentDir : String) (lines : List String) :
    parse_m3u parentDir true lines none =
      ((lines.map pyStrip).filter
        (fun l => !(strIsEmpty l || startsWithChar l '#'))).map
        (resolve_m3u_line parentDir)
    ∧ resolve_m3u_line "dir" "clip.mp4" = "dir/clip.mp4"
    ∧ (∀ l, isAbsPosix l = true → resolve_m3u_line parentDir l = l) := by
  refine ⟨?_, rfl, fun l hl => by simp [resolve_m3u_line, hl]⟩
  show parse_m3u_lines parentDir lines = _
  induction lines with
  | nil => rfl
  | cons raw rest ih =>
    cases h1 : strIsEmpty (pyStrip raw)
    · cases h2 : startsWithChar (pyStrip raw) '#'
      · simp [parse_m3u_lines, h1, h2, ih]
      · simp [parse_m3u_lines, h1, h2, ih]
    · simp [parse_m3u_lines, h1, ih]

/-- C4 witness: a relative entry resolves against the directory, and an
absolute entry is kept, at concrete inputs. -/
theorem c4_witness :
    parse_m3u "dir" true ["clip.mp4"] none = ["dir/clip.mp4"]
    ∧ resolve_m3u_line "dir" "/abs/x.mp4" = "/abs/x.mp4" := by
  refine ⟨?_, (c4_m3u_lines "dir" []).2.2 "/abs/x.mp4" rfl⟩
  rw [(c4_m3u_lines "dir" ["clip.mp4"]).1]
  decide

/-- C8 counterexample: a read failure raised while reading lines (here after
the first of two lines has been processed) does NOT yield an empty sequence:
the `except` branch falls through to `return items`, so the entries
accumulated before the failure are returned. -/
theorem c8_counterexample :
    parse_m3u "d" true ["a.mp4", "b.mp4"] (some 1) = ["d/a.mp4"]
    ∧ parse_m3u "d" true ["a.mp4", "b.mp4"] (some 1) ≠ [] := by
  exact ⟨rfl, by decide⟩

/-- C8 (amended): a read failure is reported and the parser returns the
entries accumulated before the failure instead of propagating it: an open
failure yields the empty sequence, and a failure after `k` lines yields a
prefix of the full parse (the parse of the first `k` lines). -/
theorem c8_m3u_read_failure (parentDir : String) (lines : List String) (k : Nat) :
    parse_m3u parentDir false lines none = []
    ∧ parse_m3u parentDir false lines (some k) = []
    ∧ parse_m3u parentDir true lines (some k) =
        parse_m3u_lines parentDir (lines.take k)
    ∧ parse_m3u parentDir true lines (some k) <+:
        parse_m3u parentDir true lines none := by
  refine ⟨rfl, rfl, rfl, ?_⟩
  show parse_m3u_lines parentDir (lines.take k) <+: parse_m3u_lines parentDir lines
  refine ⟨parse_m3u_lines parentDir (lines.drop k), ?_⟩
  rw [← parse_m3u_lines_append, List.take_append_drop]

/-- C5: XSPF location handling.  `file:///C:/a%20b.mp4` on a drive-letter
platform percent-decodes and strips the leading separator, yielding
`C:/a b.mp4`; an empty-scheme relative location is percent-decoded and
resolved against the document's directory; and every `http`/`https` URL is
kept character-for-character unmodified. -/
theorem c5_xspf_location :
    xspf_location true "docs" "file:///C:/a%20b.mp4" = "C:/a b.mp4"
    ∧ (∀ (w : Bool) (d url : String),
        (urlSchemePath url).1 = "http" ∨ (urlSchemePath url).1 = "https" →
        xspf_location w d url = url)
    ∧ xspf_location false "docs" "clip%20a.mp4" = "docs/clip a.mp4"
    ∧ xspf_location true "docs" "https://host/stream" = "https://host/stream" := by
  refine ⟨by decide, ?_, by decide, by decide⟩
  intro w d url h
  rcases h with h | h <;> simp [xspf_location, h]

/-- C5 witness: the `https` preservation applied at the spec's concrete
stream URL, on both platforms. -/
theorem c5_witness :
    xspf_location false "docs" "https://host/stream" = "https://host/stream" :=
  c5_xspf_location.2.1 false "docs" "https://host/stream" (Or.inr rfl)

theorem lexLt_asymm : ∀ a b : List Char, lexLt a b = true → lexLt b a = false
  | [], [] => by simp [lexLt]
  | [], _ :: _ => by simp [lexLt]
  | _ :: _, [] => by simp [lexLt]
  | a :: as, b :: bs => by
    simp only [lexLt]
    rcases Nat.lt_trichotomy a.toNat b.toNat with h | h | h
    · rw [if_pos h, if_neg (by omega : ¬b.toNat < a.toNat), if_pos h]
      intro _
      rfl
    · rw [if_neg (by omega : ¬a.toNat < b.toNat), if_neg (by omega : ¬b.toNat < a.toNat),
        if_neg (by omega : ¬b.toNat < a.toNat), if_neg (by omega : ¬a.toNat < b.toNat)]
      exact lexLt_asymm as bs
    · rw [if_neg (by omega : ¬a.toNat < b.toNat), if_pos h]
      intro hF
      exact absurd hF (by simp)

theorem lexLt_false_trans :
    ∀ a b c : List Char, lexLt a b = false → lexLt b c = false → lexLt a c = false
  | [], b, c => by
    cases b with
    | nil => exact fun _ h2 => h2
    | cons y bs => intro h1 _; simp [lexLt] at h1
  | _ :: _, b, [] => by
    intro _ _
    simp [lexLt]
  | _ :: _, [], _ :: _ => by
    intro _ h2
    simp [lexLt] at h2
  | x :: as, y :: bs, z :: cs => by
    simp only [lexLt]
    intro h1 h2
    by_cases hxy : x.toNat < y.toNat
    · rw [if_pos hxy] at h1
      exact absurd h1 (by simp)
    · rw [if_neg hxy] at h1
      by_cases hyz : y.toNat < z.toNat
      · rw [if_pos hyz] at h2
        exact absurd h2 (by simp)
      · rw [if_neg hyz] at h2
        rw [if_neg (by omega : ¬x.toNat < z.toNat)]
        by_cases hzx : z.toNat < x.toNat
        · rw [if_pos hzx]
        · rw [if_neg hzx]
          rw [if_neg (by omega : ¬y.toNat < x.toNat)] at h1
          rw [if_neg (by omega : ¬z.toNat < y.toNat)] at h2
          exact lexLt_false_trans as bs cs h1 h2

instance : IsTotal String (fun a b => strLe a b = true) := by
  constructor
  intro a b
  unfold strLe
  cases hab : lexLt b.toList a.toList
  · left
    rfl
  · right
    rw [lexLt_asymm b.toList a.toList hab]
    rfl

instance : IsTrans String (fun a b => strLe a b = true) := by
  constructor
  intro a b c hab hbc
  unfold strLe at *
  rw [Bool.not_eq_true'] at hab hbc ⊢
  exact lexLt_false_trans c.toList b.toList a.toList hbc hab

/-- C6: the directory scanner returns exactly the directory's regular files
whose extension is a supported video extension, each resolved inside the
directory; non-video files and non-file entries (subdirectories) contribute
nothing; the output is the name-sorted listing; and on the spec's concrete
folder `b.mp4, a.mkv, readme.txt, c.avi` it returns the sorted, video-only
result. -/
theorem c6_scan_directory :
    scan_directory "/d"
        [⟨"b.mp4", true⟩, ⟨"a.mkv", true⟩, ⟨"readme.txt", true⟩,
         ⟨"c.avi", true⟩, ⟨"sub", false⟩]
      = ["/d/a.mkv", "/d/b.mp4", "/d/c.avi"]
    ∧ (∀ (d : String) (es : List DirEntry) (s : String),
        s ∈ scan_directory d es ↔
          ∃ e ∈ es, e.isFile = true ∧ is_video_file e.name = true
            ∧ s = joinPath d e.name)
    ∧ (∀ (d : String) (es : List DirEntry), ∃ ns : List String,
        scan_directory d es = ns.map (joinPath d)
        ∧ List.Sorted (fun a b => strLe a b = true) ns) := by
  refine ⟨by decide, ?_, ?_⟩
  · intro d es s
    simp only [scan_directory, List.mem_map, List.mem_insertionSort,
      List.mem_filter, Bool.and_eq_true]
    constructor
    · rintro ⟨n, ⟨e, ⟨he, hf, hv⟩, rfl⟩, rfl⟩
      exact ⟨e, he, hf, hv, rfl⟩
    · rintro ⟨e, he, hf, hv, rfl⟩
      exact ⟨e.name, ⟨e, ⟨he, hf, hv⟩, rfl⟩, rfl⟩
  · intro d es
    exact ⟨_, rfl, List.sorted_insertionSort _ _⟩

/-- C6 witness: applying the membership characterisation at the concrete
folder shows `a.mkv` is in the scan result and `readme.txt` is not. -/
theorem c6_witness :
    "/d/a.mkv" ∈ scan_directory "/d"
      [⟨"b.mp4", true⟩, ⟨"a.mkv", true⟩, ⟨"readme.txt", true⟩,
       ⟨"c.avi", true⟩, ⟨"sub", false⟩] :=
  (c6_scan_directory.2.1 "/d" _ _).mpr
    ⟨⟨"a.mkv", true⟩, by decide, rfl, by decide, rfl⟩

/-- C3: stopping a session never raises (also on a second invocation with
arbitrary sub-step failures), all three sub-steps — stop engine, release
engine handle, destroy window — are attempted regardless of earlier
failures (in particular the window is destroyed whenever the destroy step
itself works, even if the two engine steps failed), and invoking `stop`
twice produces the same end state as invoking it once. -/
theorem c3_stop_idempotent (s : VLCSession) (f g : StopFailures) :
    (stop s f).2.2 = false
    ∧ (stop s f).2.1 = [.engineStop, .engineRelease, .windowDestroy]
    ∧ (stop (stop s f).1 g).2.2 = false
    ∧ (stop (stop s noStopFailures).1 noStopFailures).1 = (stop s noStopFailures).1
    ∧ (stop s f).1.windowAllocated = (if f.destroyFails then s.windowAllocated else false)
    ∧ (stop s f).1.state = .stoppedS := by
  refine ⟨rfl, rfl, rfl, rfl, ?_, ?_⟩
  · rcases f with ⟨f1, f2, f3⟩
    cases f3 <;> cases f2 <;> cases f1 <;> rfl
  · rcases f with ⟨f1, f2, f3⟩
    cases f3 <;> cases f2 <;> cases f1 <;> rfl

/-- C2 counterexample: constructing a session for a source that resolves to
the empty sequence fails with the empty-playlist error, but the `Toplevel`
window created by the constructor's first statement and the libVLC instance
are still allocated when the error propagates — contradicting the claim that
no window and no engine handle remains allocated. -/
theorem c2_counterexample :
    ∃ fl : InitFailure,
      embeddedVLC_init envA g1 2 "missing.mp4" = .error fl
      ∧ fl.error = .emptyPlaylist
      ∧ fl.windowAllocated = true
      ∧ fl.vlcInstanceAllocated = true :=
  ⟨_, rfl, rfl, rfl, rfl⟩

/-- C2 (amended): construction with an empty resolved sequence fails with the
empty-playlist error, but at the moment the failure is raised the window and
the engine instance allocated by the constructor's earlier statements remain
allocated (only the media player has not been created yet); no partially
constructed resource is released. -/
theorem c2_empty_playlist_leaks (env : Env) (mon : Geo) (sc : Int) (src : String)
    (h : env.resolve src = []) :
    embeddedVLC_init env mon sc src =
      .error { error := .emptyPlaylist, windowAllocated := true,
               vlcInstanceAllocated := true, mediaPlayerAllocated := false } := by
  simp [embeddedVLC_init, h]

/-- C2 witness: the amended theorem applied to the concrete environment and a
source that resolves to nothing. -/
theorem c2_witness :
    embeddedVLC_init envA g0 1 "nothere.m3u" =
      .error { error := .emptyPlaylist, windowAllocated := true,
               vlcInstanceAllocated := true, mediaPlayerAllocated := false } :=
  c2_empty_playlist_leaks envA g0 1 "nothere.m3u" rfl

theorem constructAll_cons_ok (env : Env) (a : Assignment) (s : VLCSession)
    (rest : List Assignment) (acc : List VLCSession) (ws : List Int)
    (h : buildSession env a = some s) :
    constructAll env (a :: rest) acc ws
      = constructAll env rest (acc ++ [s]) (ws ++ [a.screen]) := by
  unfold buildSession at h
  cases hm : monitor_for env.monitors a.screen with
  | error e => simp [hm] at h
  | ok mon =>
    simp only [hm] at h
    cases hi : embeddedVLC_init env mon a.screen a.path with
    | error f => simp [hi] at h
    | ok s' =>
      simp only [hi, Option.some.injEq] at h
      subst h
      simp [constructAll, hm, hi]

theorem constructAll_pre_ok (env : Env) :
    ∀ (pre rest : List Assignment) (acc : List VLCSession) (ws : List Int),
      (∀ b ∈ pre, constructOk env b = true) →
      constructAll env (pre ++ rest) acc ws
        = constructAll env rest (acc ++ pre.filterMap (buildSession env))
            (ws ++ pre.map Assignment.screen)
  | [], rest, acc, ws, _ => by simp
  | b :: pre, rest, acc, ws, h => by
    have hb : (buildSession env b).isSome = true := h b (by simp)
    obtain ⟨s, hs⟩ := Option.isSome_iff_exists.mp hb
    rw [List.cons_append, constructAll_cons_ok env b s _ _ _ hs]
    rw [constructAll_pre_ok env pre rest (acc ++ [s]) (ws ++ [b.screen])
      (fun x hx => h x (by simp [hx]))]
    simp [List.filterMap_cons, hs]

theorem constructAll_head_fail (env : Env) (a : Assignment)
    (post : List Assignment) (acc : List VLCSession) (ws : List Int)
    (h : constructOk env a = false) :
    ∃ (ws' : List Int) (e : OrchFailure),
      constructAll env (a :: post) acc ws = (acc, ws', some e) := by
  unfold constructOk buildSession at h
  cases hm : monitor_for env.monitors a.screen with
  | error er => exact ⟨ws, .screenOutOfRange, by simp [constructAll, hm]⟩
  | ok mon =>
    simp only [hm] at h
    cases hi : embeddedVLC_init env mon a.screen a.path with
    | error f =>
      exact ⟨ws ++ [a.screen], .initFailed f, by simp [constructAll, hm, hi]⟩
    | ok s =>
      simp only [hi] at h
      simp at h

theorem buildSession_fresh {env : Env} {a : Assignment} {s : VLCSession}
    (h : buildSession env a = some s) :
    s.everPlayed = false ∧ s.state = .constructingS := by
  unfold buildSession at h
  cases hm : monitor_for env.monitors a.screen with
  | error e => simp [hm] at h
  | ok mon =>
    simp only [hm] at h
    unfold embeddedVLC_init at h
    by_cases he : (env.resolve a.path).isEmpty
    · simp [he] at h
    · by_cases hp : env.platform = .darwin
      · simp [he, hp] at h
      · simp only [he, hp, if_false, Bool.false_eq_true, if_neg] at h
        injection h with h
        rw [← h]
        exact ⟨rfl, rfl⟩

theorem filterMap_build_length (env : Env) :
    ∀ pre : List Assignment, (∀ b ∈ pre, constructOk env b = true) →
      (pre.filterMap (buildSession env)).length = pre.length
  | [], _ => rfl
  | b :: pre, h => by
    have hb : (buildSession env b).isSome = true := h b (by simp)
    obtain ⟨s, hs⟩ := Option.isSome_iff_exists.mp hb
    simp [List.filterMap_cons, hs,
      filterMap_build_length env pre (fun x hx => h x (by simp [hx]))]

/-- C1 counterexample: two assignments on a two-monitor setup, the first
valid, the second naming a source that does not resolve.  The claim predicts
that the surviving session reaches Playing and the exit code is 0; instead
the single `try/except` around the whole construction loop fires before any
play thread starts, stops the already-built session, and exits with code 1:
one session was built, none ever played. -/
theorem c1_counterexample :
    (embed_and_play envA asgA).exitCode = 1
    ∧ (embed_and_play envA asgA).sessions.length = 1
    ∧ (embed_and_play envA asgA).sessions.all (fun s => !s.everPlayed) = true :=
  ⟨rfl, rfl, rfl⟩

/-- C1 (amended): when an assignment fails to resolve or construct, the
failure is reported and the whole run aborts: the already-constructed
sessions are stopped without ever reaching Playing, the assignments after
the failing one are not attempted, and the process exits with code 1
(not 0); no session reaches Playing on this path. -/
theorem c1_first_failure_aborts (env : Env) (pre : List Assignment)
    (a : Assignment) (post : List Assignment)
    (hmons : env.monitors.isEmpty = false)
    (hpre : ∀ b ∈ pre, constructOk env b = true)
    (ha : constructOk env a = false) :
    (embed_and_play env (pre ++ a :: post)).exitCode = 1
    ∧ (embed_and_play env (pre ++ a :: post)).sessions.length = pre.length
    ∧ (∀ s ∈ (embed_and_play env (pre ++ a :: post)).sessions,
        s.state = .stoppedS ∧ s.everPlayed = false) := by
  obtain ⟨ws', e, hc⟩ := constructAll_head_fail env a post
    (List.filterMap (buildSession env) pre) (pre.map Assignment.screen) ha
  have hrun : embed_and_play env (pre ++ a :: post)
      = { exitCode := 1,
          sessions := (List.filterMap (buildSession env) pre).map
            (fun s => (stop s noStopFailures).1),
          windowsCreated := ws' } := by
    unfold embed_and_play
    rw [if_neg (by simp [hmons])]
    rw [constructAll_pre_ok env pre (a :: post) [] [] hpre]
    simp only [List.nil_append]
    rw [hc]
  refine ⟨by rw [hrun], ?_, ?_⟩
  · rw [hrun]
    simp [filterMap_build_length env pre hpre]
  · rw [hrun]
    intro s hs
    simp only [List.mem_map] at hs
    obtain ⟨t, ht, rfl⟩ := hs
    obtain ⟨b, _, hb⟩ := List.mem_filterMap.mp ht
    exact ⟨rfl, (buildSession_fresh hb).1⟩

/-- C1 witness: the amended theorem applied to the concrete two-assignment
run where the first assignment is valid and the second fails to resolve. -/
theorem c1_witness :
    (embed_and_play envA ([⟨"ok.mp4", 1⟩] ++ ⟨"missing.mp4", 2⟩ :: [])).exitCode = 1
    ∧ (embed_and_play envA
        ([⟨"ok.mp4", 1⟩] ++ ⟨"missing.mp4", 2⟩ :: [])).sessions.length = 1 := by
  have h := c1_first_failure_aborts envA [⟨"ok.mp4", 1⟩] ⟨"missing.mp4", 2⟩ []
    rfl (by decide) (by decide)
  exact ⟨h.1, h.2.1⟩

theorem constructAll_windows_inv (env : Env) :
    ∀ (asg : List Assignment) (acc : List VLCSession) (ws : List Int),
      (∀ i ∈ ws, 1 ≤ i ∧ i ≤ (env.monitors.length : Int)) →
      ∀ i ∈ (constructAll env asg acc ws).2.1,
        1 ≤ i ∧ i ≤ (env.monitors.length : Int)
  | [], acc, ws, hws => by simpa [constructAll] using hws
  | a :: rest, acc, ws, hws => by
    cases hm : monitor_for env.monitors a.screen with
    | error e =>
      simp only [constructAll, hm]
      exact hws
    | ok mon =>
      have hb := monitor_for_ok_bounds hm
      cases hi : embeddedVLC_init env mon a.screen a.path with
      | error f =>
        simp only [constructAll, hm, hi]
        intro i hmem
        rcases List.mem_append.mp hmem with h | h
        · exact hws i h
        · simp only [List.mem_singleton] at h
          subst h
          exact hb
      | ok s =>
        simp only [constructAll, hm, hi]
        refine constructAll_windows_inv env rest (acc ++ [s]) (ws ++ [a.screen]) ?_
        intro i hmem
        rcases List.mem_append.mp hmem with h | h
        · exact hws i h
        · simp only [List.mem_singleton] at h
          subst h
          exact hb

theorem embed_windows_eq (env : Env) (assignments : List Assignment)
    (hm : env.monitors.isEmpty = false) :
    (embed_and_play env assignments).windowsCreated
      = (constructAll env assignments [] []).2.1 := by
  unfold embed_and_play
  rw [if_neg (by simp [hm])]
  cases hc : constructAll env assignments [] [] with
  | mk acc p =>
    obtain ⟨ws, ofail⟩ := p
    cases ofail <;> simp

/-- C9: a window is only ever created for a screen index that was first
validated against the enumerated monitor count: every screen recorded in the
run's window-creation trace lies in `1..count`. -/
theorem c9_window_creation_validated (env : Env) (assignments : List Assignment)
    (sc : Int) (h : sc ∈ (embed_and_play env assignments).windowsCreated) :
    1 ≤ sc ∧ sc ≤ (env.monitors.length : Int) := by
  by_cases hm : env.monitors.isEmpty
  · unfold embed_and_play at h
    rw [if_pos hm] at h
    simp at h
  · rw [embed_windows_eq env assignments (by simpa using hm)] at h
    exact constructAll_windows_inv env assignments [] [] (by simp) sc h

/-- C9 witness: in the concrete aborting run, screen 1 got a window and its
index is within the two-monitor range. -/
theorem c9_witness :
    1 ≤ (1 : Int) ∧ (1 : Int) ≤ ((envA.monitors.length : Int)) :=
  c9_window_creation_validated envA asgA 1 (by decide)

end Screens
